import Mathlib

/-!
Verification of the passkey WebAuthn demo's ceremony core.

The development shallowly embeds the in-memory database (`src/lib/db.ts`)
and the API route handlers (register/login/sensitive-operation
generate-options and verify) as pure Lean functions over an explicit
`DbState`.  JavaScript `Map`s become association lists, `Uint8Array`s
become `List Nat` of byte values, wall-clock time (`Date.now()`) becomes
an explicit `now : Nat` parameter (milliseconds), and the nondeterministic
id/challenge generators become explicit parameters.  The external
`@simplewebauthn/server` verifier is an oracle parameter of each verify
route.  Cookie mutations performed on the HTTP response are reified as a
`List CookieOp`.
-/

namespace Passkey

/-- A registered authenticator, from `Authenticator` in `src/lib/db.ts`.
`credentialID` and `credentialPublicKey` are byte arrays. -/
structure Authenticator where
  credentialID : List Nat
  credentialPublicKey : List Nat
  counter : Nat
  credentialDeviceType : String
  credentialBackedUp : Bool
  transports : List String
  deriving Repr, DecidableEq

/-- A user record, from `User` in `src/lib/db.ts`. -/
structure User where
  id : String
  username : String
  credentials : List Authenticator
  deriving Repr, DecidableEq

/-- A stored challenge, from `Challenge` in `src/lib/db.ts`.
`timestamp` is milliseconds since the epoch. -/
structure Challenge where
  challenge : String
  username : Option String
  timestamp : Nat
  deriving Repr, DecidableEq

/-- The global in-memory database (`global.dbInstance` in `src/lib/db.ts`):
a list of users and a map from session id to challenge, the map embedded
as an association list in insertion order. -/
structure DbState where
  users : List User
  challenges : List (String × Challenge)
  deriving Repr, DecidableEq

/-- Challenge expiration time: 5 minutes in milliseconds (`CHALLENGE_TIMEOUT`). -/
def CHALLENGE_TIMEOUT : Nat := 5 * 60 * 1000

/-- JavaScript `Map.prototype.set`: replace the value in place if the key
exists, otherwise append the new entry. -/
def mapSet (k : String) (v : Challenge) : List (String × Challenge) → List (String × Challenge)
  | [] => [(k, v)]
  | (k₁, v₁) :: rest => if k₁ = k then (k, v) :: rest else (k₁, v₁) :: mapSet k v rest

/-- JavaScript `Map.prototype.get` on the association list. -/
def mapGet (k : String) (m : List (String × Challenge)) : Option Challenge :=
  (m.find? (fun kv => kv.1 == k)).map (fun kv => kv.2)

/-- `cleanupExpiredChallenges` in `src/lib/db.ts`: delete every entry whose
age exceeds `CHALLENGE_TIMEOUT`.  JavaScript computes `now - timestamp` as
a real number; for `timestamp ≥ now` the difference is `≤ 0` there and `0`
under truncated `Nat` subtraction, and neither exceeds the timeout, so the
two agree. -/
def cleanupExpiredChallenges (now : Nat) (m : List (String × Challenge)) :
    List (String × Challenge) :=
  m.filter (fun kv => !(now - kv.2.timestamp > CHALLENGE_TIMEOUT : Bool))

/-- `db.findUserByUsername` in `src/lib/db.ts`. -/
def findUserByUsername (s : DbState) (username : String) : Option User :=
  s.users.find? (fun user => user.username == username)

/-- `db.findUserById` in `src/lib/db.ts`. -/
def findUserById (s : DbState) (id : String) : Option User :=
  s.users.find? (fun user => user.id == id)

/-- `db.createUser` in `src/lib/db.ts`.  The source generates the fresh id
nondeterministically from `Date.now()` and `Math.random()`; here it is the
explicit parameter `newId`. -/
def createUser (s : DbState) (newId username : String) : User × DbState :=
  let user : User := ⟨newId, username, []⟩
  (user, { s with users := s.users ++ [user] })

/-- Mutate the first user whose `id` matches, as `find`-then-mutate does
in the source; every later user is untouched. -/
def updateFirstById (userId : String) (f : User → User) : List User → List User
  | [] => []
  | u :: rest => if u.id == userId then f u :: rest else u :: updateFirstById userId f rest

/-- `db.areBuffersEqual` in `src/lib/db.ts`: equal length and pointwise
equal entries. -/
def areBuffersEqual (b1 b2 : List Nat) : Bool :=
  b1.length == b2.length && (List.zip b1 b2).all (fun p => p.1 == p.2)

/-- `db.addCredentialToUser` in `src/lib/db.ts`: if the user exists, push
the credential onto that user's list; otherwise do nothing.  There is no
credential-id uniqueness check of any kind. -/
def addCredentialToUser (s : DbState) (userId : String) (credential : Authenticator) :
    DbState :=
  let users := updateFirstById userId
    (fun u => { u with credentials := u.credentials ++ [credential] }) s.users
  { s with users := users }

/-- Mutate the first credential whose id buffer-equals `credID`. -/
def updateFirstCred (credID : List Nat) (newCounter : Nat) :
    List Authenticator → List Authenticator
  | [] => []
  | c :: rest =>
    if areBuffersEqual c.credentialID credID then { c with counter := newCounter } :: rest
    else c :: updateFirstCred credID newCounter rest

/-- `db.updateCredentialCounter` in `src/lib/db.ts`: find the user, find
the credential by buffer equality, and unconditionally overwrite its
counter with `newCounter`.  The source performs no comparison between the
stored counter and `newCounter` and has no error channel. -/
def updateCredentialCounter (s : DbState) (userId : String) (credentialID : List Nat)
    (newCounter : Nat) : DbState :=
  let users := updateFirstById userId
    (fun u => { u with credentials := updateFirstCred credentialID newCounter u.credentials })
    s.users
  { s with users := users }

/-- `db.saveChallenge` in `src/lib/db.ts`: sweep expired entries, then
`Map.set` the new challenge with the current timestamp. -/
def saveChallenge (s : DbState) (now : Nat) (sessionId challenge : String)
    (username : Option String) : DbState :=
  let m := cleanupExpiredChallenges now s.challenges
  { s with challenges := mapSet sessionId ⟨challenge, username, now⟩ m }

/-- `db.getChallenge` in `src/lib/db.ts`: sweep expired entries (a state
change), then look the key up.  An expired entry and an absent entry both
yield `none`. -/
def getChallenge (s : DbState) (now : Nat) (sessionId : String) :
    Option Challenge × DbState :=
  let m := cleanupExpiredChallenges now s.challenges
  (mapGet sessionId m, { s with challenges := m })

/-- `db.deleteChallenge` in `src/lib/db.ts`. -/
def deleteChallenge (s : DbState) (sessionId : String) : DbState :=
  { s with challenges := s.challenges.filter (fun kv => !(kv.1 == sessionId)) }

/-! ## API route handlers

Each route is a pure function of the database state, the clock, the
request's cookies/body, and (for verify routes) the external verifier's
behaviour, returning the HTTP outcome, the new database state, and the
cookie operations performed on the response. -/

/-- The error responses the routes return. `challengeNotFoundOrExpired`
is the single `"Challenge not found or expired"` response: the routes do
not tell a missing challenge apart from an expired one. -/
inductive ApiError where
  | usernameRequired
  | usernameTaken
  | userNotFound
  | noCredentials
  | sessionNotFound
  | challengeNotFoundOrExpired
  | authenticatorNotFound
  | verificationFailed
  | notAuthenticated
  deriving Repr, DecidableEq

/-- A cookie mutation performed on the HTTP response
(`response.cookies.set` / `response.cookies.delete`). -/
inductive CookieOp where
  | set (name value : String) (maxAge : Nat)
  | del (name : String)
  deriving Repr, DecidableEq

/-- The WebAuthn registration ceremony options the register
generate-options route builds (the fields the claims are about). -/
structure RegistrationOptions where
  userVerification : String
  challenge : String
  deriving Repr, DecidableEq

/-- The WebAuthn authentication ceremony options built by the login and
sensitive-operation generate-options routes. -/
structure AuthenticationOptions where
  userVerification : String
  allowCredentials : List (List Nat)
  challenge : String
  deriving Repr, DecidableEq

/-- Result of the external `verifyAuthenticationResponse` call:
`verified` plus `authenticationInfo.newCounter`. -/
structure AuthCheck where
  verified : Bool
  newCounter : Nat
  deriving Repr, DecidableEq

/-- The fields of `verification.registrationInfo` the register verify
route consumes. -/
structure RegistrationInfo where
  credentialID : List Nat
  credentialPublicKey : List Nat
  counter : Nat
  credentialDeviceType : String
  credentialBackedUp : Bool
  deriving Repr, DecidableEq

/-- Result of the external `verifyRegistrationResponse` call. -/
structure RegCheck where
  verified : Bool
  registrationInfo : Option RegistrationInfo
  deriving Repr, DecidableEq

/-- Success body of the register generate-options route. -/
structure RegisterGenOk where
  options : RegistrationOptions
  deriving Repr, DecidableEq

/-- Success body of the login / sensitive-operation generate-options
routes. -/
structure AuthGenOk where
  options : AuthenticationOptions
  deriving Repr, DecidableEq

/-- Success body of the register / login verify routes. -/
structure VerifyOk where
  verified : Bool
  username : String
  deriving Repr, DecidableEq

/-- Success body of the sensitive-operation verify route: only the
approval flag, no token material. -/
structure SensitiveOpOk where
  verified : Bool
  operationApproved : Bool
  deriving Repr, DecidableEq

/-- `POST /api/register/generate-options` (src/unnamed/part_006).
`username` is the request body field (`none` for a missing or non-string
value); `newUserId`, `sessionId` and `challengeStr` stand for the values
the source draws from `Date.now()`/`Math.random()` and from
`generateRegistrationOptions`.  Note the route creates the user *here*,
before any signed response has been verified. -/
def registerGenerateOptions (s : DbState) (now : Nat) (username : Option String)
    (newUserId sessionId challengeStr : String) :
    Except ApiError RegisterGenOk × DbState × List CookieOp :=
  match username with
  | none => (Except.error ApiError.usernameRequired, s, [])
  | some username =>
    if username == "" then (Except.error ApiError.usernameRequired, s, []) else
    match findUserByUsername s username with
    | some _ => (Except.error ApiError.usernameTaken, s, [])
    | none =>
      let us := createUser s newUserId username
      let options : RegistrationOptions := ⟨"preferred", challengeStr⟩
      let s₂ := saveChallenge us.2 now sessionId challengeStr (some username)
      let s₃ := (getChallenge s₂ now sessionId).2
      (Except.ok ⟨options⟩, s₃, [CookieOp.set "sessionId" sessionId (60 * 5)])

/-- `POST /api/login/generate-options`
(src/app/api/login/generate-options/route.ts, first handler). -/
def loginGenerateOptions (s : DbState) (now : Nat) (username : Option String)
    (sessionId challengeStr : String) :
    Except ApiError AuthGenOk × DbState × List CookieOp :=
  match username with
  | none => (Except.error ApiError.usernameRequired, s, [])
  | some username =>
    if username == "" then (Except.error ApiError.usernameRequired, s, []) else
    match findUserByUsername s username with
    | none => (Except.error ApiError.userNotFound, s, [])
    | some user =>
      if user.credentials.length == 0 then (Except.error ApiError.noCredentials, s, []) else
      let options : AuthenticationOptions :=
        ⟨"preferred", user.credentials.map (fun cred => cred.credentialID), challengeStr⟩
      let s₁ := saveChallenge s now sessionId challengeStr (some username)
      let s₂ := (getChallenge s₁ now sessionId).2
      (Except.ok ⟨options⟩, s₂, [CookieOp.set "sessionId" sessionId (60 * 5)])

/-- `POST /api/sensitive-operation/generate-options` (src/unnamed/part_004):
the begin step of the step-up ceremony.  Requires the `userId` session
cookie; stores the challenge with *no* username; sets the
`operationSessionId` cookie. -/
def sensitiveOpGenerateOptions (s : DbState) (now : Nat) (userIdCookie : Option String)
    (sessionId challengeStr : String) :
    Except ApiError AuthGenOk × DbState × List CookieOp :=
  match userIdCookie with
  | none => (Except.error ApiError.notAuthenticated, s, [])
  | some userId =>
    if userId == "" then (Except.error ApiError.notAuthenticated, s, []) else
    match findUserById s userId with
    | none => (Except.error ApiError.noCredentials, s, [])
    | some user =>
      if user.credentials.length == 0 then (Except.error ApiError.noCredentials, s, []) else
      let options : AuthenticationOptions :=
        ⟨"required", user.credentials.map (fun cred => cred.credentialID), challengeStr⟩
      let s₁ := saveChallenge s now sessionId challengeStr none
      (Except.ok ⟨options⟩, s₁, [CookieOp.set "operationSessionId" sessionId (60 * 5)])

/-- `POST /api/register/verify` (src/unnamed/part_005).  `transports` is
the request body's `response.transports`; `verifier` is the external
`verifyRegistrationResponse` as a function of the expected challenge. -/
def registerVerify (s : DbState) (now : Nat) (sessionIdCookie : Option String)
    (transports : List String) (verifier : String → RegCheck) :
    Except ApiError VerifyOk × DbState × List CookieOp :=
  match sessionIdCookie with
  | none => (Except.error ApiError.sessionNotFound, s, [])
  | some sessionId =>
    if sessionId == "" then (Except.error ApiError.sessionNotFound, s, []) else
    let gc := getChallenge s now sessionId
    let s₁ := gc.2
    match gc.1 with
    | none => (Except.error ApiError.challengeNotFoundOrExpired, s₁, [])
    | some challengeData =>
      match challengeData.username with
      | none => (Except.error ApiError.challengeNotFoundOrExpired, s₁, [])
      | some username =>
        if username == "" then (Except.error ApiError.challengeNotFoundOrExpired, s₁, []) else
        match findUserByUsername s₁ username with
        | none => (Except.error ApiError.userNotFound, s₁, [])
        | some user =>
          let verification := verifier challengeData.challenge
          if !verification.verified then (Except.error ApiError.verificationFailed, s₁, []) else
          match verification.registrationInfo with
          | none => (Except.error ApiError.verificationFailed, s₁, [])
          | some info =>
            let newAuthenticator : Authenticator :=
              ⟨info.credentialID, info.credentialPublicKey, info.counter,
                info.credentialDeviceType, info.credentialBackedUp, transports⟩
            let s₂ := addCredentialToUser s₁ user.id newAuthenticator
            let s₃ := deleteChallenge s₂ sessionId
            (Except.ok ⟨true, user.username⟩, s₃,
              [CookieOp.set "userId" user.id (60 * 60 * 24 * 30)])

/-- `POST /api/login/verify`
(src/app/api/login/generate-options/route.ts, second handler).  `rawId`
is the base64-decoded `credential.rawId` (`none` when absent, which the
source turns into an empty array); `verifier` is the external
`verifyAuthenticationResponse` as a function of the expected challenge
and the stored authenticator. -/
def loginVerify (s : DbState) (now : Nat) (sessionIdCookie : Option String)
    (rawId : Option (List Nat)) (verifier : String → Authenticator → AuthCheck) :
    Except ApiError VerifyOk × DbState × List CookieOp :=
  match sessionIdCookie with
  | none => (Except.error ApiError.sessionNotFound, s, [])
  | some sessionId =>
    if sessionId == "" then (Except.error ApiError.sessionNotFound, s, []) else
    let gc := getChallenge s now sessionId
    let s₁ := gc.2
    match gc.1 with
    | none => (Except.error ApiError.challengeNotFoundOrExpired, s₁, [])
    | some challengeData =>
      match challengeData.username with
      | none => (Except.error ApiError.challengeNotFoundOrExpired, s₁, [])
      | some username =>
        if username == "" then (Except.error ApiError.challengeNotFoundOrExpired, s₁, []) else
        match findUserByUsername s₁ username with
        | none => (Except.error ApiError.userNotFound, s₁, [])
        | some user =>
          let rawBytes := rawId.getD []
          match user.credentials.find?
              (fun cred => areBuffersEqual cred.credentialID rawBytes) with
          | none => (Except.error ApiError.authenticatorNotFound, s₁, [])
          | some authenticator =>
            let verification := verifier challengeData.challenge authenticator
            if !verification.verified then
              (Except.error ApiError.verificationFailed, s₁, [])
            else
              let s₂ := updateCredentialCounter s₁ user.id authenticator.credentialID
                verification.newCounter
              let s₃ := deleteChallenge s₂ sessionId
              (Except.ok ⟨true, user.username⟩, s₃,
                [CookieOp.set "userId" user.id (60 * 60 * 24 * 30)])

/-- `POST /api/sensitive-operation/verify` (src/unnamed/part_003): the
finish step of the step-up ceremony.  On success it answers with the
approval flags only and *clears* the `operationSessionId` cookie; it
never sets a `userId` (session) cookie. -/
def sensitiveOpVerify (s : DbState) (now : Nat)
    (userIdCookie operationSessionIdCookie : Option String)
    (rawId : Option (List Nat)) (verifier : String → Authenticator → AuthCheck) :
    Except ApiError SensitiveOpOk × DbState × List CookieOp :=
  match userIdCookie with
  | none => (Except.error ApiError.notAuthenticated, s, [])
  | some userId =>
    if userId == "" then (Except.error ApiError.notAuthenticated, s, []) else
    match operationSessionIdCookie with
    | none => (Except.error ApiError.sessionNotFound, s, [])
    | some sessionId =>
      if sessionId == "" then (Except.error ApiError.sessionNotFound, s, []) else
      let gc := getChallenge s now sessionId
      let s₁ := gc.2
      match gc.1 with
      | none => (Except.error ApiError.challengeNotFoundOrExpired, s₁, [])
      | some challengeData =>
        match findUserById s₁ userId with
        | none => (Except.error ApiError.userNotFound, s₁, [])
        | some user =>
          let rawBytes := rawId.getD []
          match user.credentials.find?
              (fun cred => areBuffersEqual cred.credentialID rawBytes) with
          | none => (Except.error ApiError.authenticatorNotFound, s₁, [])
          | some authenticator =>
            let verification := verifier challengeData.challenge authenticator
            if !verification.verified then
              (Except.error ApiError.verificationFailed, s₁, [])
            else
              let s₂ := updateCredentialCounter s₁ user.id authenticator.credentialID
                verification.newCounter
              let s₃ := deleteChallenge s₂ sessionId
              (Except.ok ⟨true, true⟩, s₃, [CookieOp.del "operationSessionId"])

/-! ## base64url conversion helpers

`uint8ArrayToBase64url` / `base64urlToUint8Array` from `src/lib/webauthn.ts`
build on the platform's `btoa` / `atob`.  Those two are modelled here per
RFC 4648 standard base64 and the WHATWG forgiving-base64 decode that
`atob` implements: strip ASCII whitespace, strip up to two trailing `=`
when the length is a multiple of four, fail when the remaining length is
`1 (mod 4)` or any character is outside the alphabet, and discard leftover
bits of a trailing group of two or three characters.  Strings are
embedded as lists of characters and byte arrays as lists of byte
values. -/

/-- The base64 alphabet: the character for a 6-bit group. -/
def charOfSextet (n : Nat) : Char :=
  if n < 26 then Char.ofNat (65 + n)
  else if n < 52 then Char.ofNat (97 + (n - 26))
  else if n < 62 then Char.ofNat (48 + (n - 52))
  else if n = 62 then '+'
  else '/'

/-- Inverse alphabet lookup; `none` for a character outside the base64
alphabet (including `=` and whitespace). -/
def sextetOfChar (c : Char) : Option Nat :=
  let k := c.toNat
  if 65 ≤ k ∧ k ≤ 90 then some (k - 65)
  else if 97 ≤ k ∧ k ≤ 122 then some (k - 97 + 26)
  else if 48 ≤ k ∧ k ≤ 57 then some (k - 48 + 52)
  else if c = '+' then some 62
  else if c = '/' then some 63
  else none

/-- The platform's `btoa` on a binary string of byte values: RFC 4648
standard base64 with `=` padding, three bytes per four characters. -/
def btoa : List Nat → List Char
  | [] => []
  | [b1] => [charOfSextet (b1 / 4), charOfSextet (b1 % 4 * 16), '=', '=']
  | [b1, b2] =>
    [charOfSextet (b1 / 4), charOfSextet (b1 % 4 * 16 + b2 / 16),
      charOfSextet (b2 % 16 * 4), '=']
  | b1 :: b2 :: b3 :: rest =>
    charOfSextet (b1 / 4) :: charOfSextet (b1 % 4 * 16 + b2 / 16) ::
    charOfSextet (b2 % 16 * 4 + b3 / 64) :: charOfSextet (b3 % 64) :: btoa rest

/-- ASCII whitespace, which forgiving-base64 strips before decoding. -/
def isAsciiWS (c : Char) : Bool :=
  c == ' ' || c == Char.ofNat 9 || c == Char.ofNat 10 || c == Char.ofNat 12 ||
  c == Char.ofNat 13

/-- Strip up to two trailing `=` when the input length is a multiple of
four (the padding rule of forgiving-base64). -/
def stripPad (s : List Char) : List Char :=
  if s.length % 4 == 0 then
    if s.getLast? == some '=' then
      let s₁ := s.dropLast
      if s₁.getLast? == some '=' then s₁.dropLast else s₁
    else s
  else s

/-- Translate every character through the inverse alphabet, failing on
the first character outside it. -/
def decodeSextets : List Char → Option (List Nat)
  | [] => some []
  | c :: rest =>
    match sextetOfChar c, decodeSextets rest with
    | some v, some vs => some (v :: vs)
    | _, _ => none

/-- Reassemble bytes from 6-bit groups; a trailing group of two or three
characters contributes one or two bytes, its leftover bits discarded. -/
def unsextets : List Nat → List Nat
  | s1 :: s2 :: s3 :: s4 :: rest =>
    (s1 * 4 + s2 / 16) :: (s2 % 16 * 16 + s3 / 4) :: (s3 % 4 * 64 + s4) :: unsextets rest
  | [s1, s2, s3] => [s1 * 4 + s2 / 16, s2 % 16 * 16 + s3 / 4]
  | [s1, s2] => [s1 * 4 + s2 / 16]
  | _ => []

/-- The platform's `atob`: WHATWG forgiving-base64 decode to a list of
byte values. -/
def atob (input : List Char) : Option (List Nat) :=
  let data := input.filter (fun c => !isAsciiWS c)
  let data := stripPad data
  if data.length % 4 == 1 then none
  else
    match decodeSextets data with
    | none => none
    | some sx => some (unsextets sx)

/-- The per-character effect of the three `replace` calls in
`uint8ArrayToBase64url`: plus becomes minus, slash becomes underscore,
and the `=` padding is dropped. -/
def urlEncodeChar (c : Char) : Option Char :=
  if c = '=' then none
  else if c = '+' then some '-'
  else if c = '/' then some '_'
  else some c

/-- The per-character effect of the two `replace` calls in
`base64urlToUint8Array`: minus becomes plus and underscore becomes
slash. -/
def urlDecodeChar (c : Char) : Char :=
  if c = '-' then '+' else if c = '_' then '/' else c

/-- `uint8ArrayToBase64url` in `src/lib/webauthn.ts`: build the binary
string from the bytes, `btoa` it, make it url-safe and drop the
padding. -/
def uint8ArrayToBase64url (bytes : List Nat) : List Char :=
  (btoa bytes).filterMap urlEncodeChar

/-- `base64urlToUint8Array` in `src/lib/webauthn.ts`: undo the url-safe
substitutions and `atob` the result back to bytes; `none` models the
`InvalidCharacterError` that `atob` throws on malformed input. -/
def base64urlToUint8Array (base64url : List Char) : Option (List Nat) :=
  atob (base64url.map urlDecodeChar)

/-- The 6-bit groups of a byte list, without the `=` padding: the
character payload of `btoa`. -/
def sextets : List Nat → List Nat
  | [] => []
  | [b1] => [b1 / 4, b1 % 4 * 16]
  | [b1, b2] => [b1 / 4, b1 % 4 * 16 + b2 / 16, b2 % 16 * 4]
  | b1 :: b2 :: b3 :: rest =>
    b1 / 4 :: (b1 % 4 * 16 + b2 / 16) :: (b2 % 16 * 4 + b3 / 64) :: b3 % 64 :: sextets rest

/-! ## Concrete fixtures used by counterexamples and witnesses -/

/-- A credential with id `[1]` and counter `0`. -/
def credA : Authenticator := ⟨[1], [2], 0, "singleDevice", false, ["internal"]⟩

/-- A credential with id `[1]` and counter `5`. -/
def credA5 : Authenticator := ⟨[1], [2], 5, "singleDevice", false, ["internal"]⟩

/-- A credential with id `[7]`, owned by bob in `sAliceBob`. -/
def credBob : Authenticator := ⟨[7], [8], 0, "singleDevice", false, ["internal"]⟩

/-- alice owning `credA5` (stored counter `5`). -/
def sAlice5 : DbState := ⟨[⟨"u1", "alice", [credA5]⟩], []⟩

/-- alice with no credentials, bob owning `credBob`. -/
def sAliceBob : DbState := ⟨[⟨"u1", "alice", []⟩, ⟨"u2", "bob", [credBob]⟩], []⟩

/-- The empty database. -/
def sEmpty : DbState := ⟨[], []⟩

/-- One challenge for session `"s1"` stored at time `0`. -/
def sOneCh : DbState := ⟨[], [("s1", ⟨"ch", some "alice", 0⟩)]⟩

/-- alice owning `credA`, a live login challenge under `"s1"` (saved at
`400000`) and an expired one under `"s2"` (saved at `0`). -/
def sLive : DbState :=
  ⟨[⟨"u1", "alice", [credA]⟩],
    [("s1", ⟨"ch", some "alice", 400000⟩), ("s2", ⟨"ch2", some "alice", 0⟩)]⟩

/-- alice with no credentials yet and a pending registration challenge. -/
def sRegPending : DbState := ⟨[⟨"u1", "alice", []⟩], [("s1", ⟨"ch", some "alice", 0⟩)]⟩

/-- alice owning `credA` and a pending step-up challenge (stored without
a username) under `"op1"`. -/
def sOpPending : DbState := ⟨[⟨"u1", "alice", [credA]⟩], [("op1", ⟨"ch", none, 0⟩)]⟩

/-- An authentication verifier that accepts and reports counter `1`. -/
def verOk : String → Authenticator → AuthCheck := fun _ _ => ⟨true, 1⟩

/-- An authentication verifier that rejects. -/
def verBad : String → Authenticator → AuthCheck := fun _ _ => ⟨false, 1⟩

/-- A registration verifier that accepts with a fresh credential `[9]`. -/
def regVerOk : String → RegCheck := fun _ => ⟨true, some ⟨[9], [10], 0, "singleDevice", false⟩⟩

/-- A registration verifier that rejects. -/
def regVerBad : String → RegCheck := fun _ => ⟨false, none⟩

/-! ## Lemmas about the base64 alphabet and chunk structure -/

theorem base64Char_facts : ∀ n : Fin 64,
    (urlEncodeChar (charOfSextet n.val)).map urlDecodeChar = some (charOfSextet n.val) ∧
    sextetOfChar (charOfSextet n.val) = some n.val ∧
    isAsciiWS (charOfSextet n.val) = false ∧
    charOfSextet n.val ≠ '=' := by decide

theorem roundChar {v : Nat} (hv : v < 64) :
    (urlEncodeChar (charOfSextet v)).map urlDecodeChar = some (charOfSextet v) :=
  (base64Char_facts ⟨v, hv⟩).1

theorem sextet_inv {v : Nat} (hv : v < 64) : sextetOfChar (charOfSextet v) = some v :=
  (base64Char_facts ⟨v, hv⟩).2.1

theorem notWS {v : Nat} (hv : v < 64) : isAsciiWS (charOfSextet v) = false :=
  (base64Char_facts ⟨v, hv⟩).2.2.1

theorem notPad {v : Nat} (hv : v < 64) : charOfSextet v ≠ '=' :=
  (base64Char_facts ⟨v, hv⟩).2.2.2

theorem padChar_none : (urlEncodeChar '=').map urlDecodeChar = none := by decide

theorem sextets_lt : ∀ b : List Nat, (∀ x ∈ b, x < 256) → ∀ v ∈ sextets b, v < 64 := by
  intro b
  induction b using sextets.induct with
  | case1 =>
    intro _ v hv
    simp [sextets] at hv
  | case2 b1 =>
    intro h v hv
    have h1 : b1 < 256 := h b1 (by simp)
    simp [sextets] at hv
    rcases hv with rfl | rfl <;> omega
  | case3 b1 b2 =>
    intro h v hv
    have h1 : b1 < 256 := h b1 (by simp)
    have h2 : b2 < 256 := h b2 (by simp)
    simp [sextets] at hv
    rcases hv with rfl | rfl | rfl <;> omega
  | case4 b1 b2 b3 rest ih =>
    intro h v hv
    have h1 : b1 < 256 := h b1 (by simp)
    have h2 : b2 < 256 := h b2 (by simp)
    have h3 : b3 < 256 := h b3 (by simp)
    simp [sextets] at hv
    rcases hv with rfl | rfl | rfl | rfl | hv
    · omega
    · omega
    · omega
    · omega
    · exact ih (fun x hx => h x (by simp [hx])) v hv

theorem stripped_eq : ∀ b : List Nat, (∀ x ∈ b, x < 256) →
    (btoa b).filterMap (fun c => (urlEncodeChar c).map urlDecodeChar)
      = (sextets b).map charOfSextet := by
  intro b
  induction b using btoa.induct with
  | case1 => intro _; rfl
  | case2 b1 =>
    intro h
    have h1 : b1 < 256 := h b1 (by simp)
    simp [btoa, sextets, List.filterMap_cons, padChar_none,
      roundChar (show b1 / 4 < 64 by omega), roundChar (show b1 % 4 * 16 < 64 by omega)]
  | case3 b1 b2 =>
    intro h
    have h1 : b1 < 256 := h b1 (by simp)
    have h2 : b2 < 256 := h b2 (by simp)
    simp [btoa, sextets, List.filterMap_cons, padChar_none,
      roundChar (show b1 / 4 < 64 by omega),
      roundChar (show b1 % 4 * 16 + b2 / 16 < 64 by omega),
      roundChar (show b2 % 16 * 4 < 64 by omega)]
  | case4 b1 b2 b3 rest ih =>
    intro h
    have h1 : b1 < 256 := h b1 (by simp)
    have h2 : b2 < 256 := h b2 (by simp)
    have h3 : b3 < 256 := h b3 (by simp)
    have ih' := ih (fun x hx => h x (by simp [hx]))
    simp [btoa, sextets, List.filterMap_cons, ih',
      roundChar (show b1 / 4 < 64 by omega),
      roundChar (show b1 % 4 * 16 + b2 / 16 < 64 by omega),
      roundChar (show b2 % 16 * 4 + b3 / 64 < 64 by omega),
      roundChar (show b3 % 64 < 64 by omega)]

theorem getLast?_ne_pad {l : List Char} (h : '=' ∉ l) : (l.getLast? == some '=') = false := by
  rw [beq_eq_false_iff_ne]
  intro heq
  have hm : '=' ∈ l.getLast? := Option.mem_def.mpr heq
  obtain ⟨hne, hEq⟩ := List.mem_getLast?_eq_getLast hm
  exact h (hEq ▸ List.getLast_mem hne)

theorem stripPad_id {s : List Char} (h : '=' ∉ s) : stripPad s = s := by
  simp [stripPad, getLast?_ne_pad h]

theorem length_mod4 : ∀ b : List Nat,
    (sextets b).length % 4 = 0 ∨ (sextets b).length % 4 = 2 ∨ (sextets b).length % 4 = 3 := by
  intro b
  induction b using sextets.induct with
  | case1 => simp [sextets]
  | case2 b1 => simp [sextets]
  | case3 b1 b2 => simp [sextets]
  | case4 b1 b2 b3 rest ih =>
    simp only [sextets, List.length_cons]
    rcases ih with h4 | h4 | h4 <;> omega

theorem decodeSextets_map : ∀ l : List Nat, (∀ v ∈ l, v < 64) →
    decodeSextets (l.map charOfSextet) = some l := by
  intro l
  induction l with
  | nil => intro _; rfl
  | cons v t ih =>
    intro h
    simp [decodeSextets, sextet_inv (h v (by simp)), ih (fun x hx => h x (by simp [hx]))]

theorem unsextets_sextets : ∀ b : List Nat, (∀ x ∈ b, x < 256) →
    unsextets (sextets b) = b := by
  intro b
  induction b using sextets.induct with
  | case1 => intro _; rfl
  | case2 b1 =>
    intro h
    have h1 : b1 < 256 := h b1 (by simp)
    simp [sextets, unsextets]
    omega
  | case3 b1 b2 =>
    intro h
    have h1 : b1 < 256 := h b1 (by simp)
    have h2 : b2 < 256 := h b2 (by simp)
    simp [sextets, unsextets]
    omega
  | case4 b1 b2 b3 rest ih =>
    intro h
    have h1 : b1 < 256 := h b1 (by simp)
    have h2 : b2 < 256 := h b2 (by simp)
    have h3 : b3 < 256 := h b3 (by simp)
    have ih' := ih (fun x hx => h x (by simp [hx]))
    simp [sextets, unsextets, ih']
    omega

/-- C10: for every byte array `b`,
`base64urlToUint8Array (uint8ArrayToBase64url b) = b` — decoding the
base64url encoding of any byte array recovers the original array
exactly. -/
theorem c10_base64url_roundTrip (bytes : List Nat) (h : ∀ x ∈ bytes, x < 256) :
    base64urlToUint8Array (uint8ArrayToBase64url bytes) = some bytes := by
  have hsx := sextets_lt bytes h
  have hmem : '=' ∉ (sextets bytes).map charOfSextet := by
    intro hc
    obtain ⟨v, hv, hEq⟩ := List.mem_map.mp hc
    exact notPad (hsx v hv) hEq
  have hws : ((sextets bytes).map charOfSextet).filter (fun c => !isAsciiWS c)
      = (sextets bytes).map charOfSextet := by
    apply List.filter_eq_self.mpr
    intro c hc
    obtain ⟨v, hv, rfl⟩ := List.mem_map.mp hc
    simp [notWS (hsx v hv)]
  have hlen : (((sextets bytes).map charOfSextet).length % 4 == 1) = false := by
    rw [List.length_map]
    rcases length_mod4 bytes with h4 | h4 | h4 <;> simp [h4]
  have hstr : ((btoa bytes).filterMap urlEncodeChar).map urlDecodeChar
      = (sextets bytes).map charOfSextet := by
    rw [List.map_filterMap]
    exact stripped_eq bytes h
  simp only [base64urlToUint8Array, uint8ArrayToBase64url, atob]
  rw [hstr, hws, stripPad_id hmem]
  simp [hlen, decodeSextets_map _ hsx, unsextets_sextets bytes h]
  rcases length_mod4 bytes with h4 | h4 | h4 <;> omega

/-- Witness for C10 at the concrete byte array `[0, 255, 16, 3]`. -/
theorem c10_base64url_roundTrip_witness :
    (∀ x ∈ [0, 255, 16, 3], x < 256) ∧
      base64urlToUint8Array (uint8ArrayToBase64url [0, 255, 16, 3]) = some [0, 255, 16, 3] :=
  ⟨by decide, c10_base64url_roundTrip [0, 255, 16, 3] (by decide)⟩

/-! ## Lemmas about the user list and the challenge map -/

theorem updateFirstById_not_found {us : List User} {uid : String} {f : User → User}
    (h : us.find? (fun u => u.id == uid) = none) : updateFirstById uid f us = us := by
  induction us with
  | nil => rfl
  | cons u t ih =>
    rw [List.find?_eq_none] at h
    have hu : (u.id == uid) = false := by simpa using h u (by simp)
    simp only [updateFirstById, hu, Bool.false_eq_true, if_false]
    rw [ih (List.find?_eq_none.mpr fun x hx => h x (by simp [hx]))]

theorem updateFirstById_found {uid : String} {f : User → User}
    (hid : ∀ x, (f x).id = x.id) :
    ∀ {us : List User} {u : User}, us.find? (fun v => v.id == uid) = some u →
      (updateFirstById uid f us).find? (fun v => v.id == uid) = some (f u) := by
  intro us
  induction us with
  | nil => intro u h; simp at h
  | cons v t ih =>
    intro u h
    by_cases hv : (v.id == uid) = true
    · simp only [List.find?_cons, hv] at h
      obtain rfl : v = u := by simpa using h
      have hfv : ((f v).id == uid) = true := by
        rw [beq_iff_eq, hid v]
        exact beq_iff_eq.mp hv
      simp [updateFirstById, hv, List.find?_cons, hfv]
    · have hv' : (v.id == uid) = false := eq_false_of_ne_true hv
      simp only [List.find?_cons, hv'] at h
      simp [updateFirstById, hv', List.find?_cons, ih h]

theorem updateFirstById_map_username (uid : String) (f : User → User)
    (hf : ∀ x, (f x).username = x.username) :
    ∀ us : List User, (updateFirstById uid f us).map User.username = us.map User.username := by
  intro us
  induction us with
  | nil => rfl
  | cons u t ih =>
    by_cases hu : (u.id == uid) = true <;> simp [updateFirstById, hu, hf, ih]

theorem map_username_updateFirst_add (uid : String) (cred : Authenticator) (us : List User) :
    (updateFirstById uid (fun u => { u with credentials := u.credentials ++ [cred] }) us).map
      User.username = us.map User.username :=
  updateFirstById_map_username uid
    (fun u => { u with credentials := u.credentials ++ [cred] }) (fun _ => rfl) us

theorem mapGet_none_of_all_ne {sid : String} {m : List (String × Challenge)}
    (h : ∀ kv ∈ m, (kv.1 == sid) = false) : mapGet sid m = none := by
  have hf : m.find? (fun kv => kv.1 == sid) = none :=
    List.find?_eq_none.mpr fun kv hkv => by simp [h kv hkv]
  simp [mapGet, hf]

theorem cleanup_preserves_all_ne {sid : String} {m : List (String × Challenge)} {now : Nat}
    (h : ∀ kv ∈ m, (kv.1 == sid) = false) :
    ∀ kv ∈ cleanupExpiredChallenges now m, (kv.1 == sid) = false := fun kv hkv =>
  h kv (List.mem_filter.mp hkv).1

theorem deleteChallenge_all_ne (s : DbState) (sid : String) :
    ∀ kv ∈ (deleteChallenge s sid).challenges, (kv.1 == sid) = false := by
  intro kv hkv
  have hp := (List.mem_filter.mp hkv).2
  simpa using hp

theorem getChallenge_none_of_all_ne {s : DbState} {sid : String} (now : Nat)
    (h : ∀ kv ∈ s.challenges, (kv.1 == sid) = false) :
    (getChallenge s now sid).1 = none := by
  simp only [getChallenge]
  exact mapGet_none_of_all_ne (cleanup_preserves_all_ne h)

/-! ## Claims -/

/-- C1: the claim requires `updateCredentialCounter` to reject a
non-increasing counter (`ReplayDetected`) and leave the stored value
unchanged; the code instead overwrites unconditionally and its type has
no error channel.  Evaluated at a stored counter of `5` and
`newCounter = 3`, the stored counter becomes `3`. -/
theorem c1_counter_overwrite :
    updateCredentialCounter sAlice5 "u1" [1] 3
      = ⟨[⟨"u1", "alice", [⟨[1], [2], 3, "singleDevice", false, ["internal"]⟩]⟩], []⟩ := by
  decide

/-- C2 counterexample: bob (`"u2"`) already owns the credential with id
`[7]`, yet `addCredentialToUser` happily appends a credential with the
same id to alice (`"u1"`) — there is no `CredentialIdCollision` and
alice's credential set changes from `[]` to `[credBob]`. -/
theorem c2_collision_not_rejected :
    (findUserByUsername sAliceBob "bob").map User.credentials = some [credBob] ∧
    (findUserByUsername sAliceBob "alice").map User.credentials = some [] ∧
    (findUserByUsername (addCredentialToUser sAliceBob "u1" credBob) "alice").map
        User.credentials = some [credBob] := by
  decide

/-- C2 amended: `addCredentialToUser` performs no credential-id
uniqueness check at all.  Whenever the target user exists the credential
is appended to that user's set — even when its id already exists under a
different user — and when the target user does not exist the call is a
silent no-op; no `CredentialIdCollision` result exists. -/
theorem c2_addCredential_unconditional (s : DbState) (uid : String) (cred : Authenticator) :
    (∀ u, findUserById s uid = some u →
        findUserById (addCredentialToUser s uid cred) uid
          = some { u with credentials := u.credentials ++ [cred] }) ∧
    (findUserById s uid = none → addCredentialToUser s uid cred = s) := by
  constructor
  · intro u h
    have hfound := updateFirstById_found
      (f := fun x => { x with credentials := x.credentials ++ [cred] }) (fun x => rfl) h
    simpa [findUserById, addCredentialToUser] using hfound
  · intro h
    simp only [addCredentialToUser]
    rw [updateFirstById_not_found (by simpa [findUserById] using h)]

/-- Witness for C2's amended claim: the collision append under alice and
the no-op on a missing user, both at concrete inputs. -/
theorem c2_addCredential_unconditional_witness :
    findUserById (addCredentialToUser sAliceBob "u1" credBob) "u1"
      = some ⟨"u1", "alice", [] ++ [credBob]⟩ ∧
    addCredentialToUser sEmpty "zz" credBob = sEmpty :=
  ⟨(c2_addCredential_unconditional sAliceBob "u1" credBob).1 ⟨"u1", "alice", []⟩ (by decide),
   (c2_addCredential_unconditional sEmpty "zz" credBob).2 (by decide)⟩

/-- C3 counterexample: starting from the empty registry,
`BeginRegistration` (the generate-options route) succeeds and the
resulting state already contains the `User` record for `"alice"`, though
no Registration-Finish has ever completed — refuting that a user exists
only after a successful finish. -/
theorem c3_user_exists_before_finish :
    (registerGenerateOptions sEmpty 0 (some "alice") "u1" "s1" "c1").1
      = Except.ok ⟨⟨"preferred", "c1"⟩⟩ ∧
    (registerGenerateOptions sEmpty 0 (some "alice") "u1" "s1" "c1").2.1.users
      = [⟨"u1", "alice", []⟩] :=
  ⟨rfl, rfl⟩

/-- C3 amended: the `User` record is created during `BeginRegistration`
itself (when the username is not yet taken), and Registration-Finish
never creates or deletes a user — it only attaches a credential to the
user created at begin. -/
theorem c3_user_created_at_begin (s : DbState) (now : Nat) :
    (∀ u nid sid ch r s' cops,
        registerGenerateOptions s now (some u) nid sid ch = (Except.ok r, s', cops) →
        s'.users = s.users ++ [⟨nid, u, []⟩]) ∧
    (∀ sidC trans ver,
        (registerVerify s now sidC trans ver).2.1.users.map User.username
          = s.users.map User.username) := by
  constructor
  · intro u nid sid ch r s' cops h
    simp only [registerGenerateOptions] at h
    split at h
    · simp at h
    · split at h
      · simp at h
      · rw [Prod.mk.injEq, Prod.mk.injEq] at h
        obtain ⟨-, h2, -⟩ := h
        subst h2
        simp [getChallenge, saveChallenge, createUser]
  · intro sidC trans ver
    simp only [registerVerify]
    repeat' split
    all_goals
      simp [getChallenge, deleteChallenge, addCredentialToUser, map_username_updateFirst_add]

/-- Witness for C3's amended claim: registering `"alice"` on the empty
state creates her user record during the begin step. -/
theorem c3_user_created_at_begin_witness :
    (⟨[⟨"u1", "alice", []⟩], [("s1", ⟨"c1", some "alice", 0⟩)]⟩ : DbState).users
      = sEmpty.users ++ [⟨"u1", "alice", []⟩] :=
  (c3_user_created_at_begin sEmpty 0).1 "alice" "u1" "s1" "c1" ⟨⟨"preferred", "c1"⟩⟩
    ⟨[⟨"u1", "alice", []⟩], [("s1", ⟨"c1", some "alice", 0⟩)]⟩
    [CookieOp.set "sessionId" "s1" 300] (by rfl)

/-- C4 counterexample: consuming the 5-minutes-stale challenge of
session `"s1"` yields exactly the same observable result (`none`, and at
the route level the single `"Challenge not found or expired"` error) as
consuming the already-deleted entry a second time — the two failure cases
are *not* distinguishable, though the expired entry is deleted as a side
effect. -/
theorem c4_expired_equals_missing :
    (getChallenge sOneCh 300001 "s1").1 = none ∧
    (getChallenge sOneCh 300001 "s1").2 = sEmpty ∧
    (getChallenge ((getChallenge sOneCh 300001 "s1").2) 300001 "s1").1 = none ∧
    (loginVerify sOneCh 300001 (some "s1") none verOk).1
      = Except.error ApiError.challengeNotFoundOrExpired ∧
    (loginVerify sEmpty 300001 (some "s1") none verOk).1
      = Except.error ApiError.challengeNotFoundOrExpired :=
  ⟨rfl, by decide, rfl, rfl, rfl⟩

/-- C4 amended: consuming a session id whose stored challenge is past
the 5-minute TTL deletes the entry as a side effect and returns the same
absent result that a second consume of the same id returns; both cases
surface as the routes' single "Challenge not found or expired" error, so
expiry and absence are not distinguishable results. -/
theorem c4_expiry_consumes (s : DbState) (sid : String) (c : Challenge) (now : Nat)
    (_hfound : mapGet sid s.challenges = some c)
    (hexp : ∀ kv ∈ s.challenges, kv.1 = sid → now - kv.2.timestamp > CHALLENGE_TIMEOUT) :
    (getChallenge s now sid).1 = none ∧
    mapGet sid ((getChallenge s now sid).2).challenges = none ∧
    (getChallenge ((getChallenge s now sid).2) now sid).1 = none := by
  have key : ∀ kv ∈ cleanupExpiredChallenges now s.challenges, (kv.1 == sid) = false := by
    intro kv hkv
    rw [cleanupExpiredChallenges, List.mem_filter] at hkv
    obtain ⟨hm, hp⟩ := hkv
    by_contra hne
    have htrue : (kv.1 == sid) = true := by
      revert hne
      cases kv.1 == sid <;> simp
    have hgt := hexp kv hm (beq_iff_eq.mp htrue)
    simp at hp
    omega
  refine ⟨?_, ?_, ?_⟩
  · simp only [getChallenge]
    exact mapGet_none_of_all_ne key
  · simp only [getChallenge]
    exact mapGet_none_of_all_ne key
  · simp only [getChallenge]
    exact mapGet_none_of_all_ne (cleanup_preserves_all_ne key)

/-- Witness for C4's amended claim at the concrete expired entry of
`sOneCh`, 1 ms past the TTL. -/
theorem c4_expiry_consumes_witness :
    (getChallenge sOneCh 300001 "s1").1 = none ∧
    mapGet "s1" ((getChallenge sOneCh 300001 "s1").2).challenges = none ∧
    (getChallenge ((getChallenge sOneCh 300001 "s1").2) 300001 "s1").1 = none :=
  c4_expiry_consumes sOneCh "s1" ⟨"ch", some "alice", 0⟩ 300001 (by decide) (by decide)

/-- C7: whenever the step-up begin route succeeds, its ceremony options
carry `userVerification = "required"`, and whenever the login begin route
succeeds, its options carry `userVerification = "preferred"`. -/
theorem c7_user_verification_policy (s : DbState) (now : Nat) :
    (∀ uidC sid ch r s' cops,
        sensitiveOpGenerateOptions s now uidC sid ch = (Except.ok r, s', cops) →
        r.options.userVerification = "required") ∧
    (∀ username sid ch r s' cops,
        loginGenerateOptions s now username sid ch = (Except.ok r, s', cops) →
        r.options.userVerification = "preferred") := by
  constructor
  · intro uidC sid ch r s' cops h
    simp only [sensitiveOpGenerateOptions] at h
    repeat' split at h
    all_goals try (simp at h)
    all_goals
      obtain ⟨hr, -, -⟩ := h
      subst hr
      rfl
  · intro username sid ch r s' cops h
    simp only [loginGenerateOptions] at h
    repeat' split at h
    all_goals try (simp at h)
    all_goals
      obtain ⟨hr, -, -⟩ := h
      subst hr
      rfl

/-- Witness for C7 at concrete successful begin calls on `sOpPending`. -/
theorem c7_user_verification_policy_witness :
    (⟨⟨"required", [[1]], "ch2"⟩⟩ : AuthGenOk).options.userVerification = "required" ∧
    (⟨⟨"preferred", [[1]], "ch9"⟩⟩ : AuthGenOk).options.userVerification = "preferred" :=
  ⟨(c7_user_verification_policy sOpPending 0).1 (some "u1") "op2" "ch2"
      ⟨⟨"required", [[1]], "ch2"⟩⟩
      ⟨[⟨"u1", "alice", [credA]⟩], [("op1", ⟨"ch", none, 0⟩), ("op2", ⟨"ch2", none, 0⟩)]⟩
      [CookieOp.set "operationSessionId" "op2" 300] (by rfl),
   (c7_user_verification_policy sOpPending 0).2 (some "alice") "s9" "ch9"
      ⟨⟨"preferred", [[1]], "ch9"⟩⟩
      ⟨[⟨"u1", "alice", [credA]⟩], [("op1", ⟨"ch", none, 0⟩), ("s9", ⟨"ch9", some "alice", 0⟩)]⟩
      [CookieOp.set "sessionId" "s9" 300] (by rfl)⟩

/-- C8: once a `BeginRegistration` for username `u` has succeeded (which
creates the user), any second `BeginRegistration` for `u` fails with
`UsernameTaken` and leaves the state unchanged — in the sequential model
the existence check and the user creation happen in one atomic step, so
no ordering of two registrations of the same username lets both
succeed. -/
theorem c8_second_registration_rejected (s : DbState) (now now₂ : Nat)
    (u nid sid ch nid₂ sid₂ ch₂ : String) (r : RegisterGenOk) (s₁ : DbState)
    (cops : List CookieOp)
    (h : registerGenerateOptions s now (some u) nid sid ch = (Except.ok r, s₁, cops)) :
    registerGenerateOptions s₁ now₂ (some u) nid₂ sid₂ ch₂
      = (Except.error ApiError.usernameTaken, s₁, []) := by
  simp only [registerGenerateOptions] at h
  split at h
  · simp at h
  next hu =>
    split at h
    · simp at h
    next heq =>
      rw [Prod.mk.injEq, Prod.mk.injEq] at h
      obtain ⟨-, h2, -⟩ := h
      have husers : s₁.users = s.users ++ [⟨nid, u, []⟩] := by
        rw [← h2]
        simp [getChallenge, saveChallenge, createUser]
      have hfound : findUserByUsername s₁ u = some ⟨nid, u, []⟩ := by
        unfold findUserByUsername
        rw [husers, List.find?_append]
        unfold findUserByUsername at heq
        rw [heq]
        simp [List.find?_cons]
      simp only [registerGenerateOptions]
      rw [if_neg hu, hfound]

/-- Witness for C8: the second registration of `"alice"` after the first
created her user record. -/
theorem c8_second_registration_rejected_witness :
    registerGenerateOptions
        ⟨[⟨"u1", "alice", []⟩], [("s1", ⟨"c1", some "alice", 0⟩)]⟩ 0 (some "alice")
        "u2" "s2" "c2"
      = (Except.error ApiError.usernameTaken,
          ⟨[⟨"u1", "alice", []⟩], [("s1", ⟨"c1", some "alice", 0⟩)]⟩, []) :=
  c8_second_registration_rejected sEmpty 0 0 "alice" "u1" "s1" "c1" "u2" "s2" "c2"
    ⟨⟨"preferred", "c1"⟩⟩ ⟨[⟨"u1", "alice", []⟩], [("s1", ⟨"c1", some "alice", 0⟩)]⟩
    [CookieOp.set "sessionId" "s1" 300] (by rfl)

/-- C5: after a finish succeeds for a session id, any second finish call
with the same session id — including a replay of the identical signed
response, at any later time and with any verifier behaviour — fails with
the challenge-absent error (the code's single response covering the
spec's `ChallengeMissing`), for each of the three finish routes: the
first call deleted the challenge, so a finish never succeeds twice. -/
theorem c5_finish_at_most_once (s : DbState) (now : Nat) (sid : String) :
    (∀ rawId ver r s' cops,
        loginVerify s now (some sid) rawId ver = (Except.ok r, s', cops) →
        ∀ now₂ rawId₂ ver₂, (loginVerify s' now₂ (some sid) rawId₂ ver₂).1
          = Except.error ApiError.challengeNotFoundOrExpired) ∧
    (∀ trans ver r s' cops,
        registerVerify s now (some sid) trans ver = (Except.ok r, s', cops) →
        ∀ now₂ trans₂ ver₂, (registerVerify s' now₂ (some sid) trans₂ ver₂).1
          = Except.error ApiError.challengeNotFoundOrExpired) ∧
    (∀ uidC rawId ver r s' cops,
        sensitiveOpVerify s now uidC (some sid) rawId ver = (Except.ok r, s', cops) →
        ∀ now₂ uid₂ rawId₂ ver₂, uid₂ ≠ "" →
          (sensitiveOpVerify s' now₂ (some uid₂) (some sid) rawId₂ ver₂).1
            = Except.error ApiError.challengeNotFoundOrExpired) := by
  refine ⟨?_, ?_, ?_⟩
  · intro rawId ver r s' cops h
    simp only [loginVerify] at h
    split at h
    · simp at h
    next hsid =>
      repeat' split at h
      all_goals try (simp at h)
      obtain ⟨-, hs, -⟩ := h
      intro now₂ rawId₂ ver₂
      have hnone : (getChallenge s' now₂ sid).1 = none := by
        rw [← hs]
        exact getChallenge_none_of_all_ne now₂ (deleteChallenge_all_ne _ sid)
      simp only [loginVerify]
      rw [if_neg hsid, hnone]
  · intro trans ver r s' cops h
    simp only [registerVerify] at h
    split at h
    · simp at h
    next hsid =>
      repeat' split at h
      all_goals try (simp at h)
      obtain ⟨-, hs, -⟩ := h
      intro now₂ trans₂ ver₂
      have hnone : (getChallenge s' now₂ sid).1 = none := by
        rw [← hs]
        exact getChallenge_none_of_all_ne now₂ (deleteChallenge_all_ne _ sid)
      simp only [registerVerify]
      rw [if_neg hsid, hnone]
  · intro uidC rawId ver r s' cops h
    simp only [sensitiveOpVerify] at h
    split at h
    · simp at h
    · split at h
      · simp at h
      · split at h
        · simp at h
        next hsid =>
          repeat' split at h
          all_goals try (simp at h)
          obtain ⟨-, hs, -⟩ := h
          intro now₂ uid₂ rawId₂ ver₂ huid₂
          have h1 : ¬ (uid₂ == "") = true := by simpa using huid₂
          have hnone : (getChallenge s' now₂ sid).1 = none := by
            rw [← hs]
            exact getChallenge_none_of_all_ne now₂ (deleteChallenge_all_ne _ sid)
          simp only [sensitiveOpVerify]
          rw [if_neg h1, if_neg hsid, hnone]

/-- Witness for C5: a concrete successful finish of each kind, replayed
against the resulting state. -/
theorem c5_finish_at_most_once_witness :
    (loginVerify
        ⟨[⟨"u1", "alice", [⟨[1], [2], 1, "singleDevice", false, ["internal"]⟩]⟩], []⟩
        400001 (some "s1") (some [1]) verOk).1
      = Except.error ApiError.challengeNotFoundOrExpired ∧
    (registerVerify
        ⟨[⟨"u1", "alice", [⟨[9], [10], 0, "singleDevice", false, ["internal"]⟩]⟩], []⟩
        1 (some "s1") ["internal"] regVerOk).1
      = Except.error ApiError.challengeNotFoundOrExpired ∧
    (sensitiveOpVerify
        ⟨[⟨"u1", "alice", [⟨[1], [2], 1, "singleDevice", false, ["internal"]⟩]⟩], []⟩
        1 (some "u1") (some "op1") (some [1]) verOk).1
      = Except.error ApiError.challengeNotFoundOrExpired :=
  ⟨(c5_finish_at_most_once sLive 400000 "s1").1 (some [1]) verOk ⟨true, "alice"⟩
      ⟨[⟨"u1", "alice", [⟨[1], [2], 1, "singleDevice", false, ["internal"]⟩]⟩], []⟩
      [CookieOp.set "userId" "u1" 2592000] (by rfl) 400001 (some [1]) verOk,
   (c5_finish_at_most_once sRegPending 0 "s1").2.1 ["internal"] regVerOk ⟨true, "alice"⟩
      ⟨[⟨"u1", "alice", [⟨[9], [10], 0, "singleDevice", false, ["internal"]⟩]⟩], []⟩
      [CookieOp.set "userId" "u1" 2592000] (by rfl) 1 ["internal"] regVerOk,
   (c5_finish_at_most_once sOpPending 0 "op1").2.2 (some "u1") (some [1]) verOk ⟨true, true⟩
      ⟨[⟨"u1", "alice", [⟨[1], [2], 1, "singleDevice", false, ["internal"]⟩]⟩], []⟩
      [CookieOp.del "operationSessionId"] (by rfl) 1 "u1" (some [1]) verOk (by decide)⟩

/-- C6: a successful step-up finish (sensitive-operation verify) returns
only the approval flags, and its only cookie operation clears
`operationSessionId` — it never sets a `userId` cookie, so no new session
token is minted and the caller's existing session binding is
untouched. -/
theorem c6_stepup_no_token (s : DbState) (now : Nat) (uidC opC : Option String)
    (rawId : Option (List Nat)) (ver : String → Authenticator → AuthCheck)
    (r : SensitiveOpOk) (s' : DbState) (cops : List CookieOp)
    (h : sensitiveOpVerify s now uidC opC rawId ver = (Except.ok r, s', cops)) :
    r = ⟨true, true⟩ ∧ cops = [CookieOp.del "operationSessionId"] ∧
      ∀ name v a, CookieOp.set name v a ∉ cops := by
  simp only [sensitiveOpVerify] at h
  repeat' split at h
  all_goals try (simp at h)
  obtain ⟨hr, -, hc⟩ := h
  subst hr
  subst hc
  refine ⟨rfl, rfl, ?_⟩
  intro name v a hmem
  simp at hmem

/-- Witness for C6 at a concrete successful step-up finish. -/
theorem c6_stepup_no_token_witness :
    (⟨true, true⟩ : SensitiveOpOk) = ⟨true, true⟩ ∧
    [CookieOp.del "operationSessionId"] = [CookieOp.del "operationSessionId"] ∧
    ∀ name v a, CookieOp.set name v a ∉ [CookieOp.del "operationSessionId"] :=
  c6_stepup_no_token sOpPending 0 (some "u1") (some "op1") (some [1]) verOk ⟨true, true⟩
    ⟨[⟨"u1", "alice", [⟨[1], [2], 1, "singleDevice", false, ["internal"]⟩]⟩], []⟩
    [CookieOp.del "operationSessionId"] (by rfl)

/-- C9 counterexample.  Two concrete runs of the login finish on `sLive`
refute the claim as stated.  (a) With a rejecting verifier the call fails
with `verificationFailed`, yet the challenge store *has* changed (the
lazy sweep inside `getChallenge` dropped the expired `"s2"` entry), so
"the stores are unchanged" is false.  (b) With an accepting verifier the
call succeeds, and its final state factors as
`deleteChallenge (updateCredentialCounter …) "s1"`: the route passes
through the intermediate state in which alice's counter is already `1`
while the `"s1"` challenge is still stored — the challenge is deleted
strictly *after* a record mutation, not together with or before it. -/
theorem c9_challenge_outlives_mutation :
    ((loginVerify sLive 400000 (some "s1") (some [1]) verBad).1
        = Except.error ApiError.verificationFailed ∧
      (loginVerify sLive 400000 (some "s1") (some [1]) verBad).2.1.challenges
        ≠ sLive.challenges) ∧
    ((loginVerify sLive 400000 (some "s1") (some [1]) verOk).1
        = Except.ok ⟨true, "alice"⟩ ∧
      (loginVerify sLive 400000 (some "s1") (some [1]) verOk).2.1
        = deleteChallenge
            (updateCredentialCounter (getChallenge sLive 400000 "s1").2 "u1" [1] 1) "s1" ∧
      mapGet "s1"
          (updateCredentialCounter (getChallenge sLive 400000 "s1").2 "u1" [1] 1).challenges
        = some ⟨"ch", some "alice", 400000⟩ ∧
      (findUserByUsername
            (updateCredentialCounter (getChallenge sLive 400000 "s1").2 "u1" [1] 1)
            "alice").map (fun u => u.credentials.map Authenticator.counter)
        = some [1] ∧
      (findUserByUsername sLive "alice").map
          (fun u => u.credentials.map Authenticator.counter)
        = some [0]) :=
  ⟨⟨rfl, by decide⟩, rfl, rfl, rfl, rfl, rfl⟩

/-- C9 amended: every login/register finish either fails — leaving the
user store untouched and performing no cookie (token) operation, the
challenge store at most swept of expired entries — or fully succeeds, in
which case the record mutation (counter update resp. credential append)
happens first and the challenge is deleted strictly after it within the
same atomic handler invocation, so the returned state always has the
challenge consumed. -/
theorem c9_fail_no_mutation_success_consumes (s : DbState) (now : Nat) (sidC : Option String) :
    (∀ rawId ver e s' cops,
        loginVerify s now sidC rawId ver = (Except.error e, s', cops) →
        s'.users = s.users ∧ cops = [] ∧
          (s'.challenges = s.challenges ∨
            s'.challenges = cleanupExpiredChallenges now s.challenges)) ∧
    (∀ rawId ver r s' cops sid, sidC = some sid →
        loginVerify s now sidC rawId ver = (Except.ok r, s', cops) →
        ∃ uid cid n,
          s' = deleteChallenge (updateCredentialCounter (getChallenge s now sid).2 uid cid n)
              sid ∧
            mapGet sid s'.challenges = none) ∧
    (∀ trans ver e s' cops,
        registerVerify s now sidC trans ver = (Except.error e, s', cops) →
        s'.users = s.users ∧ cops = [] ∧
          (s'.challenges = s.challenges ∨
            s'.challenges = cleanupExpiredChallenges now s.challenges)) ∧
    (∀ trans ver r s' cops sid, sidC = some sid →
        registerVerify s now sidC trans ver = (Except.ok r, s', cops) →
        ∃ uid cred,
          s' = deleteChallenge (addCredentialToUser (getChallenge s now sid).2 uid cred) sid ∧
            mapGet sid s'.challenges = none) := by
  refine ⟨?_, ?_, ?_, ?_⟩
  · intro rawId ver e s' cops h
    simp only [loginVerify] at h
    repeat' split at h
    all_goals try (simp at h)
    all_goals
      obtain ⟨-, hs, hc⟩ := h
      subst hs
      subst hc
      first
      | exact ⟨rfl, rfl, Or.inl rfl⟩
      | exact ⟨rfl, rfl, Or.inr rfl⟩
  · intro rawId ver r s' cops sid hsc h
    subst hsc
    simp only [loginVerify] at h
    repeat' split at h
    all_goals try (simp at h)
    obtain ⟨-, hs, -⟩ := h
    refine ⟨_, _, _, hs.symm, ?_⟩
    rw [← hs]
    exact mapGet_none_of_all_ne (deleteChallenge_all_ne _ sid)
  · intro trans ver e s' cops h
    simp only [registerVerify] at h
    repeat' split at h
    all_goals try (simp at h)
    all_goals
      obtain ⟨-, hs, hc⟩ := h
      subst hs
      subst hc
      first
      | exact ⟨rfl, rfl, Or.inl rfl⟩
      | exact ⟨rfl, rfl, Or.inr rfl⟩
  · intro trans ver r s' cops sid hsc h
    subst hsc
    simp only [registerVerify] at h
    repeat' split at h
    all_goals try (simp at h)
    obtain ⟨-, hs, -⟩ := h
    refine ⟨_, _, hs.symm, ?_⟩
    rw [← hs]
    exact mapGet_none_of_all_ne (deleteChallenge_all_ne _ sid)

/-- Witness for C9's amended claim: a concrete failing run and a
concrete successful run of both finish routes. -/
theorem c9_fail_no_mutation_success_consumes_witness :
    ((⟨[⟨"u1", "alice", [credA]⟩],
        [("s1", ⟨"ch", some "alice", 400000⟩)]⟩ : DbState).users = sLive.users ∧
      ([] : List CookieOp) = [] ∧
      ((⟨[⟨"u1", "alice", [credA]⟩],
          [("s1", ⟨"ch", some "alice", 400000⟩)]⟩ : DbState).challenges = sLive.challenges ∨
        (⟨[⟨"u1", "alice", [credA]⟩],
          [("s1", ⟨"ch", some "alice", 400000⟩)]⟩ : DbState).challenges
          = cleanupExpiredChallenges 400000 sLive.challenges)) ∧
    (∃ uid cid n,
      (⟨[⟨"u1", "alice", [⟨[1], [2], 1, "singleDevice", false, ["internal"]⟩]⟩], []⟩ : DbState)
          = deleteChallenge
              (updateCredentialCounter (getChallenge sLive 400000 "s1").2 uid cid n) "s1" ∧
        mapGet "s1"
          (⟨[⟨"u1", "alice", [⟨[1], [2], 1, "singleDevice", false, ["internal"]⟩]⟩],
            []⟩ : DbState).challenges = none) ∧
    (∃ uid cred,
      (⟨[⟨"u1", "alice", [⟨[9], [10], 0, "singleDevice", false, ["internal"]⟩]⟩], []⟩ : DbState)
          = deleteChallenge (addCredentialToUser (getChallenge sRegPending 0 "s1").2 uid cred)
              "s1" ∧
        mapGet "s1"
          (⟨[⟨"u1", "alice", [⟨[9], [10], 0, "singleDevice", false, ["internal"]⟩]⟩],
            []⟩ : DbState).challenges = none) :=
  ⟨(c9_fail_no_mutation_success_consumes sLive 400000 (some "s1")).1 (some [1]) verBad
      ApiError.verificationFailed
      ⟨[⟨"u1", "alice", [credA]⟩], [("s1", ⟨"ch", some "alice", 400000⟩)]⟩ [] (by rfl),
   (c9_fail_no_mutation_success_consumes sLive 400000 (some "s1")).2.1 (some [1]) verOk
      ⟨true, "alice"⟩
      ⟨[⟨"u1", "alice", [⟨[1], [2], 1, "singleDevice", false, ["internal"]⟩]⟩], []⟩
      [CookieOp.set "userId" "u1" 2592000] "s1" rfl (by rfl),
   (c9_fail_no_mutation_success_consumes sRegPending 0 (some "s1")).2.2.2 ["internal"]
      regVerOk ⟨true, "alice"⟩
      ⟨[⟨"u1", "alice", [⟨[9], [10], 0, "singleDevice", false, ["internal"]⟩]⟩], []⟩
      [CookieOp.set "userId" "u1" 2592000] "s1" rfl (by rfl)⟩

end Passkey
